import Mathlib

/-!
Shallow embedding of the resilient fetch-and-cache pipeline of the
ci_education gateway (Go, package main): the TTL cache (pokemonCache.get /
pokemonCache.set), the retry classification (isRetryable), the backoff
computation (backoff / randByte), and the retry orchestrator (fetchPokemon),
together with the JSON decoding of the upstream 200 body into
pokemonResponse (Go encoding/json semantics for decoding a JSON value into
the four-field struct).

Time is modelled as an integer number of nanoseconds (Go time.Time /
time.Duration are nanosecond-valued); machine randomness (randByte) is an
explicit byte parameter; the transport (httpClient.Do) is an explicit stub
mapping the attempt number to its outcome.  Metrics are modelled as the
trace of extCallsTotal labels the call increments, plus the count of
deferred extCallDurationSec observations.
-/

/-- Response model returned by the API (Go struct pokemonResponse with
json tags name, height, weight, base_experience).  Go int fields are
modelled as Int. -/
structure pokemonResponse where
  name : String := ""
  height : Int := 0
  weight : Int := 0
  baseExperience : Int := 0
deriving Repr, DecidableEq

/-- Cache entry: value plus absolute expiry instant (Go cacheEntry). -/
structure cacheEntry where
  value : pokemonResponse
  expiresAt : Int
deriving Repr, DecidableEq

/-- TTL cache (Go pokemonCache).  The Go map is modelled as a function
from keys to optional entries; the mutex only serialises access and has no
sequential semantics, so it is not modelled. -/
structure pokemonCache where
  data : String → Option cacheEntry
  ttl : Int

/-- Empty cache as built by newPokemonCache(ttl). -/
def newPokemonCache (ttl : Int) : pokemonCache :=
  { data := fun _ => none, ttl := ttl }

/-- Lookup (Go pokemonCache.get), with the current instant passed
explicitly in place of time.Now().  Returns the value, the found flag and
the possibly-updated store: a present entry whose expiry lies strictly in
the past (time.Now().After(entry.expiresAt)) is deleted and reported
absent. -/
def pokemonCache.get (c : pokemonCache) (key : String) (now : Int) :
    pokemonResponse × Bool × pokemonCache :=
  match c.data key with
  | none => ({}, false, c)
  | some entry =>
    if now > entry.expiresAt then
      ({}, false, { c with data := fun k => if k = key then none else c.data k })
    else
      (entry.value, true, c)

/-- Store (Go pokemonCache.set): unconditionally overwrites the key with a
fresh entry expiring at now + ttl. -/
def pokemonCache.set (c : pokemonCache) (key : String) (value : pokemonResponse)
    (now : Int) : pokemonCache :=
  { c with data := fun k =>
      if k = key then some { value := value, expiresAt := now + c.ttl } else c.data k }

/-! ## JSON decoding of the 200 body

fetchPokemon decodes the success body with
json.NewDecoder(resp.Body).Decode(&data) into pokemonResponse.  The body
is modelled as a single already-parsed JSON value (Decode reads one value
from the stream); a malformed body is simply not representable and is
covered by the decoder-error branch taken on any failing body.  Decoding
follows Go encoding/json unmarshalling into the struct:

* a JSON object decodes field by field in order (later duplicates
  overwrite earlier ones); keys match a struct field by its json tag under
  Go's json name folding (Go prefers an exact match but folds otherwise;
  the folding uppercases ASCII and sends every other rune to the smallest
  rune of its Unicode simple-fold orbit, and the only non-ASCII runes
  whose orbit reaches ASCII are U+212A KELVIN SIGN, folding with k/K, and
  U+017F LONG S, folding with s/S; since the four tags here are lowercase
  ASCII and pairwise distinct after folding, the fold-both-sides test
  below is exact);
* a key matching no field is skipped whatever its value;
* JSON null into any field (or into the whole struct) leaves it at its
  zero value and succeeds;
* a string field accepts only a JSON string; an int field accepts only an
  integer JSON number that fits Go's 64-bit int — a wider integer fails
  Decode with an unmarshal type error (the model's num carries an Int,
  matching the integer literals the int fields accept);
* any other shape for a known field is a type error, and any top-level
  value other than an object or null is a type error; Go reports such an
  error from Decode, and fetchPokemon only tests err != nil, so the model
  folds all of them into a single failure (none). -/

/-- JSON values, as decoded by encoding/json.  Numbers are restricted to
integers, which is what the int fields of pokemonResponse accept. -/
inductive Json where
  | null : Json
  | bool (b : Bool) : Json
  | num (n : Int) : Json
  | str (s : String) : Json
  | arr (xs : List Json) : Json
  | obj (fields : List (String × Json)) : Json
deriving Repr

/-- Go json name folding of one character code (appendFoldedName):
ASCII lowercase letters are uppercased; U+212A KELVIN SIGN and U+017F
LONG S, the only non-ASCII runes whose Unicode simple-fold orbit reaches
ASCII, fold to K and S; every other rune folds within non-ASCII and so
can never equal a character of the ASCII tags, hence keeping its own code
is an exact model for matching against them. -/
def foldCode (c : Char) : Nat :=
  if 97 ≤ c.toNat ∧ c.toNat ≤ 122 then c.toNat - 32
  else if c.toNat = 8490 then 75
  else if c.toNat = 383 then 83
  else c.toNat

/-- Match of an object key against a struct json tag under Go's json name
folding (Go prefers an exact match but folds otherwise; the four tags
here are pairwise distinct after folding, so folding both sides is the
same test). -/
def keyMatches (key tag : String) : Bool :=
  key.data.map foldCode = tag.data.map foldCode

/-- Whether a JSON integer fits Go's 64-bit int: a wider value makes
Decode fail with an unmarshal type error. -/
def fitsInt (n : Int) : Bool :=
  -9223372036854775808 ≤ n ∧ n ≤ 9223372036854775807

/-- Whether a single object member decodes without a type error: a known
field must carry a value of its type (or null); unknown keys always
decode (they are skipped). -/
def fieldOk (key : String) (v : Json) : Bool :=
  if keyMatches key "name" then
    match v with
    | .str _ => true
    | .null => true
    | _ => false
  else if keyMatches key "height" then
    match v with
    | .num n => fitsInt n
    | .null => true
    | _ => false
  else if keyMatches key "weight" then
    match v with
    | .num n => fitsInt n
    | .null => true
    | _ => false
  else if keyMatches key "base_experience" then
    match v with
    | .num n => fitsInt n
    | .null => true
    | _ => false
  else
    true

/-- Decode one object member into the struct being built; none on a type
error. -/
def setField (r : pokemonResponse) (key : String) (v : Json) :
    Option pokemonResponse :=
  if keyMatches key "name" then
    match v with
    | .str s => some { r with name := s }
    | .null => some r
    | _ => none
  else if keyMatches key "height" then
    match v with
    | .num n => if fitsInt n then some { r with height := n } else none
    | .null => some r
    | _ => none
  else if keyMatches key "weight" then
    match v with
    | .num n => if fitsInt n then some { r with weight := n } else none
    | .null => some r
    | _ => none
  else if keyMatches key "base_experience" then
    match v with
    | .num n => if fitsInt n then some { r with baseExperience := n } else none
    | .null => some r
    | _ => none
  else
    some r

/-- Decode the members of a JSON object in order. -/
def decodeFields : pokemonResponse → List (String × Json) → Option pokemonResponse
  | r, [] => some r
  | r, (k, v) :: rest =>
    match setField r k v with
    | none => none
    | some r2 => decodeFields r2 rest

/-- Decode a JSON value into pokemonResponse (Go Decode into the struct):
an object decodes field-wise, null decodes to the zero struct, every other
top-level shape is a type error. -/
def decodePokemon : Json → Option pokemonResponse
  | .obj fields => decodeFields {} fields
  | .null => some {}
  | _ => none

/-- The end-to-end example body served by the repository's test stub for
the key pikachu. -/
def pikachuBody : Json :=
  .obj [("name", .str "pikachu"), ("height", .num 4),
        ("weight", .num 60), ("base_experience", .num 112)]

/-! ## Retry classification and backoff -/

/-- Shape of a transport error as inspected by isRetryable: whether
errors.As finds a net.Error in its chain, and that net.Error's Timeout()
and Temporary() results.  A context cancellation or deadline surfacing
from httpClient.Do arrives wrapped in a url.Error, which is a net.Error
whose Timeout() is true exactly for a deadline (timeout) and whose
Temporary() is false for both context errors. -/
structure TransportError where
  isNetError : Bool
  timeout : Bool
  temporary : Bool
deriving Repr, DecidableEq

/-- Go isRetryable: a net.Error is retryable iff it is a timeout or
temporary; any other transport error is treated as retryable. -/
def isRetryable (e : TransportError) : Bool :=
  if e.isNetError then e.timeout || e.temporary else true

/-- Backoff pre-jitter duration in nanoseconds (Go backoff, before the
jitter subtraction): base 100ms doubled per attempt, capped at 1s.  The Go
float64 computation float64(base) * 2^(attempt-1) is exact for the
attempt range at issue (products below 2^53), so Nat arithmetic is
faithful. -/
def backoffPre (attempt : Nat) : Nat :=
  min (100000000 * 2 ^ (attempt - 1)) 1000000000

/-- Jitter subtracted by backoff, in nanoseconds, from the random byte b:
time.Duration(randByte()%30) * time.Millisecond. -/
def backoffJitter (b : Nat) : Nat := b % 30 * 1000000

/-- Duration slept by Go backoff(attempt) when randByte() returns b, in
nanoseconds: the capped exponential minus the jitter (Int, since nothing
in the code clamps a negative difference). -/
def backoffSleep (attempt : Nat) (b : Nat) : Int :=
  (backoffPre attempt : Int) - backoffJitter b

/-! ## The fetch orchestrator -/

/-- Outcome of one httpClient.Do call of the transport stub: either a
transport error or a response with a status code and a body. -/
inductive TransportResult where
  | transportError (e : TransportError) : TransportResult
  | response (status : Nat) (body : Json) : TransportResult
deriving Repr

/-- The lastErr value fetchPokemon keeps across retried attempts: the
transport error, or the fmt.Errorf upstream-status error. -/
inductive LastErr where
  | transport (e : TransportError) : LastErr
  | status (code : Nat) : LastErr
deriving Repr, DecidableEq

/-- Error values fetchPokemon can return, one constructor per return
statement producing a non-nil error:
callFailed     = failed to call upstream (wrapping the transport error),
parseFailed    = failed to parse response,
notFound       = pokemon not found,
upstreamStatus = upstream returned status (carrying the code formatted
                 into the message), and
retriesExhausted = upstream retries exhausted (carrying lastErr). -/
inductive FetchError where
  | callFailed (e : TransportError) : FetchError
  | parseFailed : FetchError
  | notFound : FetchError
  | upstreamStatus (code : Nat) : FetchError
  | retriesExhausted (last : Option LastErr) : FetchError
deriving Repr, DecidableEq

/-- Whether a fetch error is the post-loop retries-exhausted error. -/
def FetchError.isExhausted : FetchError → Bool
  | .retriesExhausted _ => true
  | _ => false

/-- Result of a fetchPokemon call: the returned triple (value, HTTP
status, error), plus the observable trace: number of transport calls
performed, the attempt numbers after which backoff slept, the sequence of
extCallsTotal status labels incremented, and the number of
extCallDurationSec observations (the deferred Observe). -/
structure FetchResult where
  value : pokemonResponse
  status : Nat
  err : Option FetchError
  attempts : Nat
  sleeps : List Nat
  counters : List String
  durationObs : Nat
deriving Repr, DecidableEq

/-- The attempt loop of fetchPokemon (for attempt := 1; attempt <=
maxAttempts; attempt++), with fuel the number of loop iterations left
(maxAttempts - attempt + 1); fuel running out is the loop condition
failing, which lands on the post-loop retries-exhausted return.  atts,
sleeps and counters accumulate the trace. -/
def attemptsLoop (stub : Nat → TransportResult) (maxAttempts : Nat) :
    Nat → Nat → Option LastErr → Nat → List Nat → List String → FetchResult
  | 0, _, lastErr, atts, sleeps, counters =>
    { value := {}, status := 502, err := some (.retriesExhausted lastErr),
      attempts := atts, sleeps := sleeps,
      counters := counters ++ ["error"], durationObs := 0 }
  | fuel + 1, attempt, _lastErr, atts, sleeps, counters =>
    match stub attempt with
    | .transportError e =>
      if isRetryable e = true ∧ attempt < maxAttempts then
        attemptsLoop stub maxAttempts fuel (attempt + 1) (some (.transport e))
          (atts + 1) (sleeps ++ [attempt]) counters
      else
        { value := {}, status := 502, err := some (.callFailed e),
          attempts := atts + 1, sleeps := sleeps,
          counters := counters ++ ["error"], durationObs := 0 }
    | .response s body =>
      if s = 200 then
        match decodePokemon body with
        | none =>
          { value := {}, status := 502, err := some .parseFailed,
            attempts := atts + 1, sleeps := sleeps,
            counters := counters ++ ["parse_error"], durationObs := 0 }
        | some data =>
          { value := data, status := 200, err := none,
            attempts := atts + 1, sleeps := sleeps,
            counters := counters ++ ["200"], durationObs := 0 }
      else if 500 ≤ s ∧ attempt < maxAttempts then
        attemptsLoop stub maxAttempts fuel (attempt + 1) (some (.status s))
          (atts + 1) (sleeps ++ [attempt]) counters
      else if s = 404 then
        { value := {}, status := 404, err := some .notFound,
          attempts := atts + 1, sleeps := sleeps,
          counters := counters ++ [toString s], durationObs := 0 }
      else
        { value := {}, status := 502, err := some (.upstreamStatus s),
          attempts := atts + 1, sleeps := sleeps,
          counters := counters ++ [toString s], durationObs := 0 }

/-- Go fetchPokemon over a transport stub: maxAttempts := 3, attempts
start at 1; the deferred extCallDurationSec.Observe fires exactly once at
function exit, whatever the path taken. -/
def fetchPokemon (stub : Nat → TransportResult) : FetchResult :=
  { attemptsLoop stub 3 3 1 none 0 [] [] with durationObs := 1 }

/-! ## Basic lemmas about the loop -/

/-- Unfolding lemma for one loop iteration. -/
theorem attemptsLoop_step (stub : Nat → TransportResult) (maxAttempts fuel attempt : Nat)
    (lastErr : Option LastErr) (atts : Nat) (sleeps : List Nat) (counters : List String) :
    attemptsLoop stub maxAttempts (fuel + 1) attempt lastErr atts sleeps counters =
      match stub attempt with
      | .transportError e =>
        if isRetryable e = true ∧ attempt < maxAttempts then
          attemptsLoop stub maxAttempts fuel (attempt + 1) (some (.transport e))
            (atts + 1) (sleeps ++ [attempt]) counters
        else
          { value := {}, status := 502, err := some (.callFailed e),
            attempts := atts + 1, sleeps := sleeps,
            counters := counters ++ ["error"], durationObs := 0 }
      | .response s body =>
        if s = 200 then
          match decodePokemon body with
          | none =>
            { value := {}, status := 502, err := some .parseFailed,
              attempts := atts + 1, sleeps := sleeps,
              counters := counters ++ ["parse_error"], durationObs := 0 }
          | some data =>
            { value := data, status := 200, err := none,
              attempts := atts + 1, sleeps := sleeps,
              counters := counters ++ ["200"], durationObs := 0 }
        else if 500 ≤ s ∧ attempt < maxAttempts then
          attemptsLoop stub maxAttempts fuel (attempt + 1) (some (.status s))
            (atts + 1) (sleeps ++ [attempt]) counters
        else if s = 404 then
          { value := {}, status := 404, err := some .notFound,
            attempts := atts + 1, sleeps := sleeps,
            counters := counters ++ [toString s], durationObs := 0 }
        else
          { value := {}, status := 502, err := some (.upstreamStatus s),
            attempts := atts + 1, sleeps := sleeps,
            counters := counters ++ [toString s], durationObs := 0 } := rfl

/-! ## Claims -/

/-- C1, counterexample: with a transport stub answering 503 on every
attempt, fetchPokemon does not return the retries-exhausted (upstream
unavailable) error: it returns the upstream-status error for 503, which is
not of the exhausted kind. -/
theorem c1_counterexample :
    (fetchPokemon (fun _ => TransportResult.response 503 Json.null)).err =
      some (FetchError.upstreamStatus 503) ∧
    FetchError.isExhausted (FetchError.upstreamStatus 503) = false :=
  ⟨rfl, rfl⟩

/-- C1, amended: with a transport stub answering 503 on every attempt
(whatever the bodies), fetchPokemon performs exactly 3 attempts, sleeps
after attempts 1 and 2, and returns the bad-gateway upstream-status error
carrying the last-seen status 503 — not the retries-exhausted error. -/
theorem c1_retry_bound (body : Nat → Json) :
    fetchPokemon (fun a => TransportResult.response 503 (body a)) =
      { value := {}, status := 502, err := some (.upstreamStatus 503),
        attempts := 3, sleeps := [1, 2], counters := ["503"], durationObs := 1 } :=
  rfl

/-- C2, counterexample: with TTL 0, get immediately after set finds the
entry (expiry is strict: now must exceed expiresAt); likewise with TTL 5,
get at exactly 5 after set still finds it, though the claim demands
found=false at any time at or beyond the TTL. -/
theorem c2_counterexample :
    (((newPokemonCache 0).set "k" ⟨"pikachu", 4, 60, 112⟩ 0).get "k" 0).2.1 = true ∧
    (((newPokemonCache 5).set "k" ⟨"pikachu", 4, 60, 112⟩ 0).get "k" 5).2.1 = true :=
  ⟨rfl, rfl⟩

/-- C2, amended: after set(k, v) at time now on a cache with TTL t, get(k)
at time now + d finds the entry exactly when d ≤ t (strictly after the
TTL it is gone, at or before it is present), and then returns v; with
TTL 0 the entry is hence visible only at the set instant itself. -/
theorem c2_cache_freshness (c : pokemonCache) (k : String) (v : pokemonResponse)
    (now d : Int) :
    ((c.set k v now).get k (now + d)).2.1 = decide (d ≤ c.ttl) ∧
    (d ≤ c.ttl → ((c.set k v now).get k (now + d)).1 = v) := by
  refine ⟨?_, fun hle => ?_⟩
  · by_cases hle : d ≤ c.ttl
    · have hlt : ¬ (now + d > now + c.ttl) := by omega
      simp [pokemonCache.get, pokemonCache.set, hlt, hle]
    · have hlt : now + d > now + c.ttl := by omega
      simp [pokemonCache.get, pokemonCache.set, hlt, hle]
  · have hlt : ¬ (now + d > now + c.ttl) := by omega
    simp [pokemonCache.get, pokemonCache.set, hlt]

/-- C2, witness for the amended statement at TTL 5, d = 3. -/
theorem c2_cache_freshness_witness :
    (((newPokemonCache 5).set "k" ⟨"a", 1, 2, 3⟩ 0).get "k" (0 + 3)).1 = ⟨"a", 1, 2, 3⟩ :=
  (c2_cache_freshness (newPokemonCache 5) "k" ⟨"a", 1, 2, 3⟩ 0 3).2 (by decide)

/-- C6: the backoff jitter drawn from the random byte lies in [0, 30ms);
for attempts 1 through 10 the slept duration is never negative and never
exceeds the 1s cap; and the pre-jitter capped exponential is non-decreasing
in the attempt number. -/
theorem c6_backoff_shape (attempt b a1 a2 : Nat)
    (h1 : 1 ≤ attempt) (h2 : attempt ≤ 10) (h3 : 1 ≤ a1) (h4 : a1 ≤ a2) :
    backoffJitter b < 30000000 ∧
    0 ≤ backoffSleep attempt b ∧
    backoffSleep attempt b ≤ 1000000000 ∧
    backoffPre a1 ≤ backoffPre a2 := by
  have hj : backoffJitter b < 30000000 := by unfold backoffJitter; omega
  have hone : (1 : Nat) ≤ 2 ^ (attempt - 1) := Nat.one_le_pow _ _ (by norm_num)
  have hpre_lb : 100000000 ≤ backoffPre attempt := by
    unfold backoffPre
    refine le_min ?_ (by norm_num)
    calc (100000000 : Nat) = 100000000 * 1 := by ring
      _ ≤ 100000000 * 2 ^ (attempt - 1) := Nat.mul_le_mul_left _ hone
  have hpre_ub : backoffPre attempt ≤ 1000000000 := min_le_right _ _
  refine ⟨hj, ?_, ?_, ?_⟩
  · unfold backoffSleep; omega
  · unfold backoffSleep; omega
  · unfold backoffPre
    exact min_le_min
      (Nat.mul_le_mul_left _ (Nat.pow_le_pow_right (by norm_num) (by omega))) le_rfl

/-- C6, witness at attempt 3, byte 77, monotonicity pair (2, 9). -/
theorem c6_backoff_shape_witness :
    backoffJitter 77 < 30000000 ∧
    0 ≤ backoffSleep 3 77 ∧
    backoffSleep 3 77 ≤ 1000000000 ∧
    backoffPre 2 ≤ backoffPre 9 :=
  c6_backoff_shape 3 77 2 9 (by decide) (by decide) (by decide) (by decide)

/-- C7: with a transport stub answering 404 on the first attempt (whatever
it answers later), fetchPokemon returns the not-found error with status
404 after exactly one attempt, with no backoff sleep, incrementing only
the 404-labeled failure counter. -/
theorem c7_notfound_short_circuit (body : Json) (rest : Nat → TransportResult) :
    fetchPokemon (fun a => if a = 1 then TransportResult.response 404 body else rest a) =
      { value := {}, status := 404, err := some .notFound,
        attempts := 1, sleeps := [], counters := ["404"], durationObs := 1 } :=
  rfl

/-- C3, counterexample: with a retryable transport error on attempt 1 and
a 200 with the example body on attempt 2, fetchPokemon performs two
attempts but records a single latency observation (the deferred Observe
fires once per call, not once per attempt), and increments only the
success counter — no retryable-failure metric is recorded for the retried
attempt. -/
theorem c3_counterexample :
    (fetchPokemon (fun a => if a = 1 then TransportResult.transportError ⟨false, false, false⟩
        else TransportResult.response 200 pikachuBody)).attempts = 2 ∧
    (fetchPokemon (fun a => if a = 1 then TransportResult.transportError ⟨false, false, false⟩
        else TransportResult.response 200 pikachuBody)).durationObs = 1 ∧
    (fetchPokemon (fun a => if a = 1 then TransportResult.transportError ⟨false, false, false⟩
        else TransportResult.response 200 pikachuBody)).counters = ["200"] :=
  ⟨rfl, rfl, rfl⟩

/-- C3, amended: fetchPokemon records the call latency once per call (one
deferred observation whatever the number of attempts); with a retryable
transport error on attempt 1 and a 200 with a decodable body on attempt 2
it returns the decoded Result after two attempts, one backoff sleep, and
records exactly one success metric and no failure metric. -/
theorem c3_success_after_transient (e : TransportError) (body : Json)
    (r : pokemonResponse) (rest : Nat → TransportResult)
    (he : isRetryable e = true) (hb : decodePokemon body = some r) :
    fetchPokemon (fun a => if a = 1 then .transportError e
        else if a = 2 then .response 200 body else rest a) =
      { value := r, status := 200, err := none, attempts := 2,
        sleeps := [1], counters := ["200"], durationObs := 1 } := by
  simp [fetchPokemon, attemptsLoop, he, hb]

/-- C3, witness for the amended statement on the example scenario. -/
theorem c3_success_after_transient_witness :
    fetchPokemon (fun a => if a = 1 then .transportError ⟨false, false, false⟩
        else if a = 2 then .response 200 pikachuBody
        else TransportResult.response 200 pikachuBody) =
      { value := ⟨"pikachu", 4, 60, 112⟩, status := 200, err := none, attempts := 2,
        sleeps := [1], counters := ["200"], durationObs := 1 } :=
  c3_success_after_transient ⟨false, false, false⟩ pikachuBody ⟨"pikachu", 4, 60, 112⟩
    (fun _ => TransportResult.response 200 pikachuBody) rfl rfl

/-- C4, counterexample: a deadline/timeout error from the transport (a
net.Error with Timeout() true, as a context deadline surfaces through
url.Error) is retried: fetchPokemon performs all three attempts with two
backoff sleeps and counts the final failure in the error metric, instead
of aborting after the interrupted attempt with a cancellation-classified,
uncounted error. -/
theorem c4_counterexample :
    (fetchPokemon (fun _ => TransportResult.transportError ⟨true, true, false⟩)).attempts = 3 ∧
    (fetchPokemon (fun _ => TransportResult.transportError ⟨true, true, false⟩)).sleeps = [1, 2] ∧
    (fetchPokemon (fun _ => TransportResult.transportError ⟨true, true, false⟩)).counters = ["error"] :=
  ⟨rfl, rfl, rfl⟩

/-- C4, amended: a cancellation or deadline surfacing from the transport
as a net.Error that is not temporary is handled with no cancellation
classification at all: if it reports as a timeout (deadline exceeded) it
is classified retryable and retried through all three attempts with
uninterruptible backoff sleeps; if not (explicit cancellation) it ends the
call at once; in both cases the result is the bad-gateway call-failure
error counted in the error failure metric.  The backoff sleep takes no
cancellation signal (plain time.Sleep). -/
theorem c4_cancellation_behavior (e : TransportError)
    (hnet : e.isNetError = true) (htmp : e.temporary = false) :
    (e.timeout = true →
      fetchPokemon (fun _ => .transportError e) =
        { value := {}, status := 502, err := some (.callFailed e),
          attempts := 3, sleeps := [1, 2], counters := ["error"], durationObs := 1 }) ∧
    (e.timeout = false →
      fetchPokemon (fun _ => .transportError e) =
        { value := {}, status := 502, err := some (.callFailed e),
          attempts := 1, sleeps := [], counters := ["error"], durationObs := 1 }) := by
  constructor
  · intro ht
    have he : isRetryable e = true := by simp [isRetryable, hnet, ht]
    simp [fetchPokemon, attemptsLoop, he]
  · intro ht
    have he : isRetryable e = false := by simp [isRetryable, hnet, ht, htmp]
    simp [fetchPokemon, attemptsLoop, he]

/-- C4, witness for the amended statement at a deadline-exceeded shaped
error. -/
theorem c4_cancellation_behavior_witness :
    fetchPokemon (fun _ => .transportError ⟨true, true, false⟩) =
      { value := {}, status := 502, err := some (.callFailed ⟨true, true, false⟩),
        attempts := 3, sleeps := [1, 2], counters := ["error"], durationObs := 1 } :=
  (c4_cancellation_behavior ⟨true, true, false⟩ rfl rfl).1 rfl

/-- C5: retry classification as the code implements it.  A transport
error is non-retryable exactly when it is a net.Error that is neither a
timeout nor temporary (so unknown transport errors default to retryable);
a retryable transport error is retried through all three attempts while a
non-retryable one ends the call at once, both surfacing the call-failure
error; a status at or above 500 is retried (two backoff sleeps, three
attempts); 404 returns the not-found error at once; and every other
non-200 status returns the upstream-status error at once, carrying the
status. -/
theorem c5_classification (e : TransportError) (s : Nat) (body : Json) :
    (isRetryable e = false ↔
      e.isNetError = true ∧ e.timeout = false ∧ e.temporary = false) ∧
    (isRetryable e = true →
      fetchPokemon (fun _ => .transportError e) =
        { value := {}, status := 502, err := some (.callFailed e),
          attempts := 3, sleeps := [1, 2], counters := ["error"], durationObs := 1 }) ∧
    (isRetryable e = false →
      fetchPokemon (fun _ => .transportError e) =
        { value := {}, status := 502, err := some (.callFailed e),
          attempts := 1, sleeps := [], counters := ["error"], durationObs := 1 }) ∧
    (500 ≤ s →
      fetchPokemon (fun _ => .response s body) =
        { value := {}, status := 502, err := some (.upstreamStatus s),
          attempts := 3, sleeps := [1, 2], counters := [toString s], durationObs := 1 }) ∧
    (s = 404 →
      fetchPokemon (fun _ => .response s body) =
        { value := {}, status := 404, err := some .notFound,
          attempts := 1, sleeps := [], counters := [toString s], durationObs := 1 }) ∧
    (s ≠ 200 → s < 500 → s ≠ 404 →
      fetchPokemon (fun _ => .response s body) =
        { value := {}, status := 502, err := some (.upstreamStatus s),
          attempts := 1, sleeps := [], counters := [toString s], durationObs := 1 }) := by
  refine ⟨?_, ?_, ?_, ?_, ?_, ?_⟩
  · obtain ⟨n, t, tp⟩ := e
    cases n <;> cases t <;> cases tp <;> decide
  · intro he; simp [fetchPokemon, attemptsLoop, he]
  · intro he; simp [fetchPokemon, attemptsLoop, he]
  · intro hs
    have hs200 : ¬ (s = 200) := by omega
    have h404 : ¬ (s = 404) := by omega
    simp [fetchPokemon, attemptsLoop, hs200, h404, hs]
  · intro hs; subst hs; rfl
  · intro h200 h500 h404
    have hr : ¬ (500 ≤ s) := by omega
    simp [fetchPokemon, attemptsLoop, h200, hr, h404]

/-- C5, witness: the classification conjuncts at an unknown transport
error, a non-timeout non-temporary net.Error, and statuses 503, 404 and
403. -/
theorem c5_classification_witness :
    fetchPokemon (fun _ => .transportError ⟨false, false, false⟩) =
      { value := {}, status := 502, err := some (.callFailed ⟨false, false, false⟩),
        attempts := 3, sleeps := [1, 2], counters := ["error"], durationObs := 1 } ∧
    fetchPokemon (fun _ => .transportError ⟨true, false, false⟩) =
      { value := {}, status := 502, err := some (.callFailed ⟨true, false, false⟩),
        attempts := 1, sleeps := [], counters := ["error"], durationObs := 1 } ∧
    fetchPokemon (fun _ => .response 503 Json.null) =
      { value := {}, status := 502, err := some (.upstreamStatus 503),
        attempts := 3, sleeps := [1, 2], counters := ["503"], durationObs := 1 } ∧
    fetchPokemon (fun _ => .response 404 Json.null) =
      { value := {}, status := 404, err := some .notFound,
        attempts := 1, sleeps := [], counters := ["404"], durationObs := 1 } ∧
    fetchPokemon (fun _ => .response 403 Json.null) =
      { value := {}, status := 502, err := some (.upstreamStatus 403),
        attempts := 1, sleeps := [], counters := ["403"], durationObs := 1 } :=
  ⟨(c5_classification ⟨false, false, false⟩ 0 .null).2.1 rfl,
   (c5_classification ⟨true, false, false⟩ 0 .null).2.2.1 rfl,
   (c5_classification ⟨true, false, false⟩ 503 .null).2.2.2.1 (by norm_num),
   (c5_classification ⟨true, false, false⟩ 404 .null).2.2.2.2.1 rfl,
   (c5_classification ⟨true, false, false⟩ 403 .null).2.2.2.2.2
     (by norm_num) (by norm_num) (by norm_num)⟩

/-- C8: a first-attempt response whose status is neither 2xx nor 404 nor
5xx ends the call immediately (one attempt, no backoff) with the
upstream-status error carrying the original status code, which also
labels the failure counter; the numeric HTTP status returned alongside is
502 Bad Gateway. -/
theorem c8_terminal_status_propagated (s : Nat) (body : Json)
    (rest : Nat → TransportResult)
    (h2xx : s < 200 ∨ 300 ≤ s) (h404 : s ≠ 404) (h5xx : s < 500) :
    fetchPokemon (fun a => if a = 1 then .response s body else rest a) =
      { value := {}, status := 502, err := some (.upstreamStatus s),
        attempts := 1, sleeps := [], counters := [toString s], durationObs := 1 } := by
  have hs200 : ¬ (s = 200) := by omega
  have hret : ¬ (500 ≤ s) := by omega
  simp [fetchPokemon, attemptsLoop, hs200, hret, h404]

/-- C8, witness at status 403. -/
theorem c8_terminal_status_propagated_witness :
    fetchPokemon (fun a => if a = 1 then .response 403 Json.null
        else TransportResult.response 200 Json.null) =
      { value := {}, status := 502, err := some (.upstreamStatus 403),
        attempts := 1, sleeps := [], counters := ["403"], durationObs := 1 } :=
  c8_terminal_status_propagated 403 Json.null
    (fun _ => TransportResult.response 200 Json.null)
    (by norm_num) (by norm_num) (by norm_num)

/-- Loop invariant behind C9: when the remaining fuel equals the number
of loop iterations still allowed (and at least one remains), the loop
returns from inside an iteration and never produces the post-loop
retries-exhausted error. -/
theorem attemptsLoop_no_exhausted (stub : Nat → TransportResult) (maxAttempts : Nat) :
    ∀ fuel attempt lastErr atts sleeps counters,
      1 ≤ fuel → attempt + fuel = maxAttempts + 1 →
      ((attemptsLoop stub maxAttempts fuel attempt lastErr atts sleeps counters).err.all
        fun e => !e.isExhausted) = true := by
  intro fuel
  induction fuel with
  | zero => intro _ _ _ _ _ h _; omega
  | succ n ih =>
    intro attempt lastErr atts sleeps counters _ hinv
    rw [attemptsLoop_step]
    cases hstub : stub attempt with
    | transportError e =>
      dsimp only
      by_cases hc : isRetryable e = true ∧ attempt < maxAttempts
      · rw [if_pos hc]
        obtain ⟨-, hlt⟩ := hc
        exact ih (attempt + 1) _ _ _ _ (by omega) (by omega)
      · rw [if_neg hc]; rfl
    | response s body =>
      dsimp only
      by_cases h200 : s = 200
      · rw [if_pos h200]
        cases decodePokemon body <;> rfl
      · rw [if_neg h200]
        by_cases hr : 500 ≤ s ∧ attempt < maxAttempts
        · rw [if_pos hr]
          obtain ⟨-, hlt⟩ := hr
          exact ih (attempt + 1) _ _ _ _ (by omega) (by omega)
        · rw [if_neg hr]
          by_cases h404 : s = 404
          · rw [if_pos h404]; rfl
          · rw [if_neg h404]; rfl

/-- C9: for every transport stub, i.e. every sequence of transport
outcomes, fetchPokemon returns from inside its attempt loop: the error it
returns is never the post-loop upstream-retries-exhausted error, whose
return statement is unreachable. -/
theorem c9_exhausted_unreachable (stub : Nat → TransportResult) :
    ((fetchPokemon stub).err.all fun e => !e.isExhausted) = true :=
  attemptsLoop_no_exhausted stub 3 3 1 none 0 [] [] (by norm_num) (by norm_num)

/-- A single object member fails to decode exactly when it is a known
field carrying a value of the wrong shape; which member fails does not
depend on the struct built so far. -/
theorem setField_eq_none_iff (r : pokemonResponse) (k : String) (v : Json) :
    setField r k v = none ↔ fieldOk k v = false := by
  unfold setField fieldOk
  split_ifs <;> cases v <;> simp

/-- Decoding a field list fails exactly when some member is a known field
of mismatched type, whatever struct the fold starts from. -/
theorem decodeFields_eq_none_iff (fs : List (String × Json)) :
    ∀ r, (decodeFields r fs = none ↔ ∃ kv ∈ fs, fieldOk kv.1 kv.2 = false) := by
  induction fs with
  | nil => intro r; simp [decodeFields]
  | cons kv rest ih =>
    intro r
    obtain ⟨k, v⟩ := kv
    by_cases h : fieldOk k v = false
    · have hsf : setField r k v = none := (setField_eq_none_iff r k v).mpr h
      simp only [decodeFields, hsf]
      constructor
      · intro _; exact ⟨(k, v), by simp, h⟩
      · intro _; trivial
    · have hs : ∃ r2, setField r k v = some r2 := by
        cases hsf : setField r k v with
        | none => exact absurd ((setField_eq_none_iff r k v).mp hsf) h
        | some r2 => exact ⟨r2, rfl⟩
      obtain ⟨r2, hr2⟩ := hs
      simp only [decodeFields, hr2, ih r2]
      constructor
      · rintro ⟨kv2, hmem, hbad⟩; exact ⟨kv2, by simp [hmem], hbad⟩
      · rintro ⟨kv2, hmem, hbad⟩
        rcases List.mem_cons.mp hmem with heq | hmem2
        · subst heq; exact absurd hbad h
        · exact ⟨kv2, hmem2, hbad⟩

/-- C10, counterexample: the body 42 is syntactically valid JSON that
lacks all expected fields, yet fetchPokemon returns the parse-failure
error (with the parse-error metric) instead of a success with zero
values: the decoder rejects any top-level value that is not an object or
null. -/
theorem c10_counterexample :
    decodePokemon (Json.num 42) = none ∧
    (fetchPokemon (fun _ => TransportResult.response 200 (Json.num 42))).err =
      some FetchError.parseFailed ∧
    (fetchPokemon (fun _ => TransportResult.response 200 (Json.num 42))).counters =
      ["parse_error"] :=
  ⟨rfl, rfl, rfl⟩

/-- C10, amended: a 200 body that is a JSON object fails to decode
exactly when some member is a known field (under Go's json name folding)
carrying a mismatched type or an integer too wide for Go's int; absent
fields are left at their zero values (the empty object decodes to the
all-zero struct, an object carrying only height fills only height, and a
height of 10^22 overflows and fails); keys fold beyond ASCII case — a
base_experience key spelled with U+017F LONG S reaches the field; on a
body that decodes, fetchPokemon returns success with the decoded value
after one attempt, and on a body that fails to decode (mismatched or
overflowing field, or non-object non-null top-level value, as for
malformed JSON) it returns the distinct parse-failure error. -/
theorem c10_decode_semantics (fs : List (String × Json))
    (stub : Nat → TransportResult) (body : Json) (r : pokemonResponse) :
    (decodePokemon (.obj fs) = none ↔ ∃ kv ∈ fs, fieldOk kv.1 kv.2 = false) ∧
    decodePokemon (.obj []) = some {} ∧
    decodePokemon (.obj [("height", .num 7)]) = some { height := 7 } ∧
    decodePokemon (.obj [("height", .num 10000000000000000000000)]) = none ∧
    decodePokemon (.obj [("baſe_experience", .num 5)]) =
      some { baseExperience := 5 } ∧
    decodePokemon (.obj [("baſe_experience", .str "x")]) = none ∧
    (stub 1 = .response 200 body → decodePokemon body = some r →
      fetchPokemon stub =
        { value := r, status := 200, err := none, attempts := 1,
          sleeps := [], counters := ["200"], durationObs := 1 }) ∧
    (stub 1 = .response 200 body → decodePokemon body = none →
      fetchPokemon stub =
        { value := {}, status := 502, err := some .parseFailed, attempts := 1,
          sleeps := [], counters := ["parse_error"], durationObs := 1 }) := by
  refine ⟨decodeFields_eq_none_iff fs {}, rfl, rfl, rfl, rfl, rfl, ?_, ?_⟩
  · intro h1 hb; simp [fetchPokemon, attemptsLoop, h1, hb]
  · intro h1 hb; simp [fetchPokemon, attemptsLoop, h1, hb]

/-- C10, witness: the example body decodes and is returned as a success
on the first attempt. -/
theorem c10_decode_semantics_witness :
    fetchPokemon (fun _ => TransportResult.response 200 pikachuBody) =
      { value := ⟨"pikachu", 4, 60, 112⟩, status := 200, err := none, attempts := 1,
        sleeps := [], counters := ["200"], durationObs := 1 } :=
  (c10_decode_semantics [] (fun _ => TransportResult.response 200 pikachuBody)
    pikachuBody ⟨"pikachu", 4, 60, 112⟩).2.2.2.2.2.2.1 rfl rfl
